import Mathlib

/-!
Verification development for the request-gating core of
`saas_skeleton_rate_limit.py`: multi-tenant Org/User/APIKey records,
dual-mode authentication (API key or signed session token), per-tier
quota and scope policy, and a fixed-window per-second rate limiter.

The Python source is embedded shallowly:
* database rows become Lean structures and the database a pair of lists;
* the Redis counter store becomes an explicit state record threaded
  through the limiter (a total counter function with default 0; the
  time-to-live bookkeeping, which only affects garbage collection of
  past windows, is not modelled);
* the keyed HMAC of API-key secrets and the token MAC are abstract
  function parameters (their outputs are compared, never computed);
* `HTTPException` raising becomes an `Except` value, with the mutated
  store returned alongside;
* wall-clock time is an explicit `now` argument.
-/

namespace Saas

/-- User tiers; the spec names them STANDARD / PRIORITY / UNLIMITED,
the source `UserTypeEnum` names them NORMAL / VIP / ENTERPRISE. -/
inductive UserTypeEnum where
  | NORMAL
  | VIP
  | ENTERPRISE
deriving DecidableEq, Repr

/-- The source's `API_KEY_QUOTA` dict (QPS and live-key quota by tier):
NORMAL = 10, VIP = 100, ENTERPRISE = 0 with the source comment
"0 means unlimited in our logic".  Lookups in the source use
`.get(user_type, 10)`; the default 10 is unreachable for enum values,
so the total function below is equivalent. -/
def API_KEY_QUOTA : UserTypeEnum → Nat
  | .NORMAL => 10
  | .VIP => 100
  | .ENTERPRISE => 0

/-- The source's `DEFAULT_SCOPES` dict (default scopes by tier). -/
def DEFAULT_SCOPES : UserTypeEnum → List String
  | .NORMAL => ["generate:text"]
  | .VIP => ["generate:text", "generate:image", "tts"]
  | .ENTERPRISE => ["generate:text", "generate:image", "tts", "generate:video", "admin"]

/-- The source's `mask_key`: keys of length at most 9 (and the empty
string) are returned unchanged, otherwise first 5 characters, a
redaction marker, and the last 4 characters. -/
def mask_key (key : String) : String :=
  if key.length ≤ 9 then key
  else key.take 5 ++ "****" ++ String.mk (key.data.drop (key.length - 4))

/-- A `users` row.  The stored password hash is irrelevant to the
claims and omitted; timestamps are naturals (seconds). -/
structure User where
  id : Nat
  org_id : Nat
  username : String
  is_admin : Bool
  user_type : UserTypeEnum
deriving DecidableEq, Repr

/-- An `api_keys` row.  `scopes` is stored comma-joined in the source
and split on use; claims never involve scope names containing commas,
so the round-trip is modelled as a plain list. -/
structure APIKey where
  id : Nat
  org_id : Nat
  user_id : Nat
  key_hash : String
  key_preview : String
  name : Option String
  scopes : List String
  revoked : Bool
  created_at : Nat
  expires_at : Option Nat
deriving DecidableEq, Repr

/-- The relational store: the `users` and `api_keys` tables.
Organisations appear only through `org_id` foreign keys. -/
structure DB where
  users : List User
  apiKeys : List APIKey
deriving DecidableEq, Repr

/-- A raised `fastapi.HTTPException`: status code and detail string. -/
structure HTTPException where
  status : Nat
  detail : String
deriving DecidableEq, Repr

/-- The claims a session token embeds: the source's JWT payload
`sub` (user id), `org` (organisation id), `user_type`, plus `iat`
and `exp` timestamps added by `create_access_token`. -/
structure TokenPayload where
  sub : Nat
  org : Nat
  user_type : UserTypeEnum
  iat : Nat
  exp : Nat
deriving DecidableEq, Repr

/-- A session token: its payload together with its signature. -/
structure Token where
  payload : TokenPayload
  sig : String
deriving DecidableEq, Repr

/-- Verification failures of a session token (spec §4.3). -/
inductive VerificationError where
  | Expired
  | Malformed
deriving DecidableEq, Repr

/-- Modelled from the spec: the signature and expiry checks of
`jwt.decode` (the external `jose` library called by the source's
`decode_access_token`, not part of this repository's sources).
Spec §4.3: "checks the signature against the server's signing secret
and the embedded expiry against the current time; fails with `Expired`
if past expiry, `Malformed` if the signature or structure is invalid",
with the boundary fixed by §8: "`now >= expiry` rejects".  `mac` is
the keyed signing function (already closed over the server secret). -/
def decode_access_token (mac : TokenPayload → String) (now : Nat) (t : Token) :
    Except VerificationError TokenPayload :=
  if t.sig ≠ mac t.payload then .error .Malformed
  else if now ≥ t.payload.exp then .error .Expired
  else .ok t.payload

/-- The value the source's `get_current_user` returns: the resolved
user plus either the authenticating `APIKey` row (`auth_type ==
"api_key"`, carrying the key's scopes) or the token payload
(`auth_type == "jwt"`). -/
inductive AuthSuccess where
  | apiKeyAuth (user : User) (api : APIKey)
  | jwtAuth (user : User) (payload : TokenPayload)
deriving DecidableEq, Repr

/-- The user inside an `AuthSuccess` (the source's `auth["user"]`). -/
def AuthSuccess.user : AuthSuccess → User
  | .apiKeyAuth u _ => u
  | .jwtAuth u _ => u

/-- The source's `get_current_user` dependency.  `h` is the keyed
HMAC `hash_key_hmac` (abstract), `mac` the token signing function,
`now` the current time.  The `Authorization: Bearer` scheme parsing
is HTTP glue and is modelled as an already-extracted `Option Token`.
Key path: look up by hash with `revoked=False`, reject expired keys
(`expires_at < now`), resolve the owning user.  Token path: decode,
resolve the user by id, reject on organisation-id mismatch. -/
def get_current_user (h : String → String) (mac : TokenPayload → String) (now : Nat)
    (x_api_key : Option String) (authorization : Option Token) (db : DB) :
    Except HTTPException AuthSuccess :=
  match x_api_key with
  | some k =>
    let key_h := h k
    match db.apiKeys.find? (fun a => a.key_hash == key_h && !a.revoked) with
    | none => .error ⟨401, "Invalid API key"⟩
    | some api =>
      match api.expires_at with
      | some e =>
        if e < now then .error ⟨401, "API key expired"⟩
        else
          match db.users.find? (fun u => u.id == api.user_id) with
          | none => .error ⟨401, "User not found"⟩
          | some user => .ok (.apiKeyAuth user api)
      | none =>
        match db.users.find? (fun u => u.id == api.user_id) with
        | none => .error ⟨401, "User not found"⟩
        | some user => .ok (.apiKeyAuth user api)
  | none =>
    match authorization with
    | some t =>
      match decode_access_token mac now t with
      | .error _ => .error ⟨401, "Invalid token"⟩
      | .ok payload =>
        match db.users.find? (fun u => u.id == payload.sub) with
        | none => .error ⟨401, "User not found"⟩
        | some user =>
          if user.org_id ≠ payload.org then .error ⟨401, "org mismatch in token"⟩
          else .ok (.jwtAuth user payload)
    | none => .error ⟨401, "No authentication provided"⟩

/-- The `info` dict returned alongside a `Throttled` verdict:
the limit and the post-increment observed count. -/
structure RateInfo where
  limit : Nat
  current : Nat
deriving DecidableEq, Repr

/-- The Redis counter store: whether the backend is failing (a raised
`redis.RedisError`), and the counters keyed by (user id, window
second), default 0 for absent keys. -/
structure RedisState where
  failing : Bool
  counters : Nat × Nat → Nat

/-- The source's `rate_limit_check_by_user`: fixed-window per-second
limiter.  ENTERPRISE bypasses the store; a nonpositive limit means
unlimited; on a backend error the request is admitted (fail open);
otherwise the counter for (user, current second) is incremented and
the request throttled exactly when the post-increment value exceeds
the limit.  Returns the store and the source's `(allowed, info)`. -/
def rate_limit_check_by_user (r : RedisState) (now_s : Nat) (user_id : Nat)
    (user_type : UserTypeEnum) : RedisState × (Bool × Option RateInfo) :=
  if user_type = .ENTERPRISE then (r, (true, none))
  else
    let limit := API_KEY_QUOTA user_type
    if limit ≤ 0 then (r, (true, none))
    else if r.failing then (r, (true, none))
    else
      let cur := r.counters (user_id, now_s) + 1
      let r' : RedisState :=
        { r with counters := fun p => if p = (user_id, now_s) then cur else r.counters p }
      if cur > limit then (r', (false, some ⟨limit, cur⟩))
      else (r', (true, none))

/-- `n` successive `admit()` calls by one principal inside one window:
iterates `rate_limit_check_by_user` and counts `(admitted, throttled)`
verdicts. -/
def admitN (uid : Nat) (ut : UserTypeEnum) (now_s : Nat) : Nat → RedisState → RedisState × Nat × Nat
  | 0, r => (r, 0, 0)
  | n + 1, r =>
    let step := rate_limit_check_by_user r now_s uid ut
    let rest := admitN uid ut now_s n step.1
    if step.2.1 then (rest.1, rest.2.1 + 1, rest.2.2) else (rest.1, rest.2.1, rest.2.2 + 1)

/-- The request body of the key-creation endpoint. -/
structure APIKeyCreateReq where
  name : Option String
  expires_days : Option Nat
  scopes : Option (List String)
deriving DecidableEq, Repr

/-- The creation/listing response schema `APIKeyOut`; on creation
`key` is the plaintext, on listing the masked preview. -/
structure APIKeyOut where
  id : Nat
  org_id : Nat
  user_id : Nat
  key : String
  name : Option String
  scopes : List String
  revoked : Bool
  created_at : Nat
  expires_at : Option Nat
deriving DecidableEq, Repr

/-- The user's count of live (non-revoked) keys, the source's
`db.query(APIKey).filter_by(user_id=user.id, revoked=False).count()`. -/
def live_key_count (db : DB) (uid : Nat) : Nat :=
  (db.apiKeys.filter (fun a => a.user_id == uid && !a.revoked)).length

/-- The source's `create_api_key` endpoint.  Only JWT-authenticated
callers may create keys; the quota check compares the live-key count
with `API_KEY_QUOTA` before inserting.  The generated plaintext
(`gen_api_key`, random) and the database-assigned row id are passed
in as `clear_key` and `new_id`; `h` is `hash_key_hmac`.  In the
source `if req.expires_days:` treats 0 like absent (falsy). -/
def create_api_key (h : String → String) (now : Nat) (new_id : Nat) (clear_key : String)
    (req : APIKeyCreateReq) (auth : AuthSuccess) (db : DB) :
    DB × Except HTTPException APIKeyOut :=
  match auth with
  | .apiKeyAuth _ _ => (db, .error ⟨403, "Only JWT users can create keys in this sample"⟩)
  | .jwtAuth user _ =>
    let quota := API_KEY_QUOTA user.user_type
    let existing_count := live_key_count db user.id
    if existing_count ≥ quota then
      (db, .error ⟨403, "API key quota exceeded"⟩)
    else
      let key_hash := h clear_key
      let preview := mask_key clear_key
      let scopes :=
        match req.scopes with
        | some s => s
        | none => DEFAULT_SCOPES user.user_type
      let expires_at :=
        match req.expires_days with
        | some d => if d ≠ 0 then some (now + d * 86400) else none
        | none => none
      let api : APIKey :=
        { id := new_id, org_id := user.org_id, user_id := user.id, key_hash := key_hash,
          key_preview := preview, name := req.name, scopes := scopes, revoked := false,
          created_at := now, expires_at := expires_at }
      ({ db with apiKeys := db.apiKeys ++ [api] },
       .ok { id := new_id, org_id := user.org_id, user_id := user.id, key := clear_key,
             name := req.name, scopes := scopes, revoked := false, created_at := now,
             expires_at := expires_at })

/-- Sets `revoked := true` on the first key matching id and owner,
mirroring the source's `.first()` row mutation followed by commit. -/
def revokeFirst (key_id uid : Nat) : List APIKey → List APIKey
  | [] => []
  | a :: rest =>
    if a.id == key_id && a.user_id == uid then { a with revoked := true } :: rest
    else a :: revokeFirst key_id uid rest

/-- The source's `revoke_api_key` endpoint: only JWT callers; the
lookup is by key id scoped to the calling user (404 otherwise, which
prevents cross-user revocation); the matched row gets
`revoked = True`.  Returns the source's `{"status", "id"}` as the id. -/
def revoke_api_key (key_id : Nat) (auth : AuthSuccess) (db : DB) :
    DB × Except HTTPException Nat :=
  match auth with
  | .apiKeyAuth _ _ => (db, .error ⟨403, "Only JWT users can revoke keys"⟩)
  | .jwtAuth user _ =>
    match db.apiKeys.find? (fun a => a.id == key_id && a.user_id == user.id) with
    | none => (db, .error ⟨404, "API key not found"⟩)
    | some a => ({ db with apiKeys := revokeFirst key_id user.id db.apiKeys }, .ok a.id)

/-- The body of the source's `generate` endpoint after authentication:
rate-limit check by user id and tier first, then (for API-key
callers only) the `generate:text` scope check. -/
def generate (auth : AuthSuccess) (r : RedisState) (now_s : Nat) :
    RedisState × Except HTTPException String :=
  let user := auth.user
  let out := rate_limit_check_by_user r now_s user.id user.user_type
  if out.2.1 = false then
    (out.1, .error ⟨429, "rate limit exceeded"⟩)
  else
    match auth with
    | .apiKeyAuth _ api =>
      if api.scopes.contains "generate:text" = false then
        (out.1, .error ⟨403, "API key missing required scope"⟩)
      else (out.1, .ok "Generated content (api_key)")
    | .jwtAuth _ _ => (out.1, .ok "Generated content (jwt)")

/-- The full protected-call pipeline: `get_current_user` resolves the
credential, then `generate` runs.  An authentication failure leaves
the counter store untouched. -/
def generate_endpoint (h : String → String) (mac : TokenPayload → String) (now now_s : Nat)
    (x_api_key : Option String) (authorization : Option Token) (db : DB) (r : RedisState) :
    RedisState × Except HTTPException String :=
  match get_current_user h mac now x_api_key authorization db with
  | .error e => (r, .error e)
  | .ok auth => generate auth r now_s

/-- A key of hash `hv` is present and revoked in the store (used to
state that revocation is permanent). -/
def hasRevokedKey (db : DB) (hv : String) : Prop :=
  ∃ a ∈ db.apiKeys, a.key_hash = hv ∧ a.revoked = true

/-- Key hashes are unique across the store (the source declares
`key_hash` with a unique index). -/
def uniqHash (db : DB) : Prop :=
  ∀ a ∈ db.apiKeys, ∀ b ∈ db.apiKeys, a.key_hash = b.key_hash → a = b

/-! Concrete sample data used to instantiate theorems with hypotheses. -/

/-- A NORMAL-tier sample user. -/
def sampleUser : User := { id := 1, org_id := 1, username := "bob", is_admin := false, user_type := .NORMAL }

/-- An ENTERPRISE-tier sample user. -/
def sampleEnterpriseUser : User := { id := 2, org_id := 1, username := "eve", is_admin := false, user_type := .ENTERPRISE }

/-- A sample token payload for `sampleUser`. -/
def samplePayload : TokenPayload := { sub := 1, org := 1, user_type := .NORMAL, iat := 0, exp := 100 }

/-- A sample live API key of `sampleUser`, its scopes lacking `generate:text`. -/
def sampleKeyNoScope (i : Nat) : APIKey :=
  { id := i, org_id := 1, user_id := 1, key_hash := "H", key_preview := "sk-ab****cdef",
    name := none, scopes := ["tts"], revoked := false, created_at := 0, expires_at := none }

/-- A store in which the NORMAL-tier `sampleUser` holds exactly 10
live keys (their quota). -/
def db10 : DB :=
  { users := [sampleUser], apiKeys := (List.range 10).map (fun i => sampleKeyNoScope (i + 1)) }

/-- A zeroed, healthy Redis counter store. -/
def redis0 : RedisState := { failing := false, counters := fun _ => 0 }

/-- A Redis store whose backend raises `redis.RedisError`. -/
def redisDown : RedisState := { failing := true, counters := fun _ => 0 }

/-!  Theorems settling the claims, preceded by shared helper lemmas. -/

/-- C7: an ENTERPRISE (UNLIMITED) principal is admitted by the rate
limiter with the counter store returned untouched, and any number of
successive `admit()` calls in one window all come back admitted with
zero throttled and the store still completely untouched. -/
theorem enterprise_admit_bypasses_counter (r : RedisState) (now_s uid n : Nat) :
    rate_limit_check_by_user r now_s uid .ENTERPRISE = (r, (true, none)) ∧
    admitN uid .ENTERPRISE now_s n r = (r, n, 0) := by
  refine ⟨rfl, ?_⟩
  induction n with
  | zero => rfl
  | succ m ih => simp [admitN, rate_limit_check_by_user, ih]

/-- C8: when the counter backend errors, `rate_limit_check_by_user`
fails open and returns admitted with the store unchanged, for every
tier; by contrast a token-verification failure in identity resolution
is never admitted: `get_current_user` propagates it as a 401. -/
theorem limiter_fails_open_identity_fails_closed :
    (∀ (r : RedisState) (now_s uid : Nat) (ut : UserTypeEnum), r.failing = true →
      rate_limit_check_by_user r now_s uid ut = (r, (true, none))) ∧
    (∀ (h : String → String) (mac : TokenPayload → String) (now : Nat) (t : Token) (db : DB)
      (e : VerificationError), decode_access_token mac now t = .error e →
      get_current_user h mac now none (some t) db = .error ⟨401, "Invalid token"⟩) := by
  constructor
  · intro r now_s uid ut hf
    cases ut <;> simp [rate_limit_check_by_user, API_KEY_QUOTA, hf]
  · intro h mac now t db e hdec
    simp [get_current_user, hdec]

/-- Witness for C8 at concrete inputs: a NORMAL-tier request against a
failing backend is admitted, and a token with a bad signature is
rejected 401. -/
theorem limiter_fails_open_identity_fails_closed_witness :
    rate_limit_check_by_user redisDown 0 1 .NORMAL = (redisDown, (true, none)) ∧
    get_current_user (fun _ => "H") (fun _ => "s") 0 none
      (some { payload := samplePayload, sig := "x" }) { users := [sampleUser], apiKeys := [] } =
      .error ⟨401, "Invalid token"⟩ :=
  ⟨limiter_fails_open_identity_fails_closed.1 redisDown 0 1 .NORMAL rfl,
   limiter_fails_open_identity_fails_closed.2 (fun _ => "H") (fun _ => "s") 0
     { payload := samplePayload, sig := "x" } { users := [sampleUser], apiKeys := [] }
     .Malformed rfl⟩

/-- C9: token verification fails `Expired` exactly when the signature
is valid and the current time has reached the embedded expiry
(`now >= exp`); in particular verification exactly at the expiry
timestamp is rejected. -/
theorem token_expiry_boundary :
    (∀ (mac : TokenPayload → String) (now : Nat) (t : Token),
      decode_access_token mac now t = .error .Expired ↔
        t.sig = mac t.payload ∧ now ≥ t.payload.exp) ∧
    (∀ (mac : TokenPayload → String) (t : Token), t.sig = mac t.payload →
      decode_access_token mac t.payload.exp t = .error .Expired) := by
  constructor
  · intro mac now t
    by_cases hs : t.sig = mac t.payload
    · by_cases he : now ≥ t.payload.exp <;> simp [decode_access_token, hs, he]
    · simp [decode_access_token, hs]
  · intro mac t hs
    simp [decode_access_token, hs]

/-- Witness for C9: a token with valid signature verified exactly at
its expiry timestamp fails `Expired`. -/
theorem token_expiry_boundary_witness :
    decode_access_token (fun _ => "s") samplePayload.exp { payload := samplePayload, sig := "s" } =
      .error .Expired :=
  token_expiry_boundary.2 (fun _ => "s") { payload := samplePayload, sig := "s" } rfl

/-- C5: a session token that verifies (valid signature, not expired)
but whose embedded organisation id disagrees with the resolved user's
current organisation id is hard-rejected with a 401 org-mismatch. -/
theorem token_org_mismatch_rejected (h : String → String) (mac : TokenPayload → String)
    (now : Nat) (t : Token) (db : DB) (u : User)
    (hsig : t.sig = mac t.payload) (hexp : now < t.payload.exp)
    (hfind : db.users.find? (fun x => x.id == t.payload.sub) = some u)
    (horg : u.org_id ≠ t.payload.org) :
    get_current_user h mac now none (some t) db = .error ⟨401, "org mismatch in token"⟩ := by
  simp [get_current_user, decode_access_token, hsig, Nat.not_le.mpr hexp, hfind, horg]

/-- Witness for C5: a token embedding organisation 1, replayed after
the user's organisation id is 2, is rejected. -/
theorem token_org_mismatch_rejected_witness :
    get_current_user (fun _ => "H") (fun _ => "s") 0 none
      (some { payload := samplePayload, sig := "s" })
      { users := [{ sampleUser with org_id := 2 }], apiKeys := [] } =
      .error ⟨401, "org mismatch in token"⟩ :=
  token_org_mismatch_rejected (fun _ => "H") (fun _ => "s") 0
    { payload := samplePayload, sig := "s" }
    { users := [{ sampleUser with org_id := 2 }], apiKeys := [] }
    { sampleUser with org_id := 2 } rfl (by decide) (by decide) (by decide)

/-- One limiter step for a NORMAL (limit 10) principal on a healthy
backend: the window counter is incremented, and the verdict compares
the post-increment value with the limit. -/
theorem rate_step_normal (r : RedisState) (now_s uid : Nat) (hf : r.failing = false) :
    rate_limit_check_by_user r now_s uid .NORMAL =
      ({ r with counters :=
          fun p => if p = (uid, now_s) then r.counters (uid, now_s) + 1 else r.counters p },
       if r.counters (uid, now_s) + 1 > 10 then (false, some ⟨10, r.counters (uid, now_s) + 1⟩)
       else (true, none)) := by
  by_cases hc : r.counters (uid, now_s) + 1 > 10 <;>
    simp [rate_limit_check_by_user, API_KEY_QUOTA, hf, hc]

/-- Invariant of `n` successive NORMAL-tier `admit()` calls in one
window on a healthy backend: the counter grows by `n`, and the
admitted/throttled tallies are determined by the starting counter. -/
theorem admitN_normal_invariant (uid now_s : Nat) :
    ∀ (n : Nat) (r : RedisState), r.failing = false →
      (admitN uid .NORMAL now_s n r).2.1 =
          min (r.counters (uid, now_s) + n) 10 - min (r.counters (uid, now_s)) 10 ∧
      (admitN uid .NORMAL now_s n r).2.2 =
          n - (min (r.counters (uid, now_s) + n) 10 - min (r.counters (uid, now_s)) 10) ∧
      (admitN uid .NORMAL now_s n r).1.counters (uid, now_s) = r.counters (uid, now_s) + n ∧
      (admitN uid .NORMAL now_s n r).1.failing = false := by
  intro n
  induction n with
  | zero =>
    intro r hf
    refine ⟨by simp [admitN], by simp [admitN], by simp [admitN], by simpa [admitN] using hf⟩
  | succ m ih =>
    intro r hf
    have hstep := rate_step_normal r now_s uid hf
    have hrec := ih
      { r with counters :=
          fun p => if p = (uid, now_s) then r.counters (uid, now_s) + 1 else r.counters p } hf
    simp only [if_pos rfl] at hrec
    obtain ⟨h1, h2, h3, h4⟩ := hrec
    by_cases hc : r.counters (uid, now_s) + 1 > 10
    · rw [if_pos hc] at hstep
      simp only [admitN, hstep]
      refine ⟨?_, ?_, ?_, ?_⟩ <;> simp [h1, h2, h3, h4] <;> omega
    · rw [if_neg hc] at hstep
      simp only [admitN, hstep]
      refine ⟨?_, ?_, ?_, ?_⟩ <;> simp [h1, h2, h3, h4] <;> omega

/-- C3: the limiter increments the per-(principal, window) counter
before comparing, returns Throttled with the limit and the
post-increment count exactly when that count exceeds the limit; from
an empty window, `n` calls by a NORMAL (limit 10) principal admit
exactly `min n 10` and throttle the remaining `n - min n 10` (so 15
calls admit 10 and throttle 5), and the admitted total in one window
never exceeds the limit. -/
theorem rate_limiter_count_then_compare :
    (∀ (r : RedisState) (uid now_s : Nat), r.failing = false →
      (rate_limit_check_by_user r now_s uid .NORMAL).1.counters (uid, now_s) =
          r.counters (uid, now_s) + 1 ∧
      ((rate_limit_check_by_user r now_s uid .NORMAL).2 =
          (false, some ⟨10, r.counters (uid, now_s) + 1⟩) ↔ 10 < r.counters (uid, now_s) + 1) ∧
      (r.counters (uid, now_s) + 1 ≤ 10 →
        (rate_limit_check_by_user r now_s uid .NORMAL).2 = (true, none))) ∧
    (∀ (r : RedisState) (uid now_s n : Nat), r.failing = false → r.counters (uid, now_s) = 0 →
      (admitN uid .NORMAL now_s n r).2.1 = min n 10 ∧
      (admitN uid .NORMAL now_s n r).2.2 = n - min n 10) ∧
    (∀ (r : RedisState) (uid now_s n : Nat), r.failing = false →
      (admitN uid .NORMAL now_s n r).2.1 ≤ 10) := by
  refine ⟨?_, ?_, ?_⟩
  · intro r uid now_s hf
    have hstep := rate_step_normal r now_s uid hf
    by_cases hc : r.counters (uid, now_s) + 1 > 10
    · rw [if_pos hc] at hstep
      refine ⟨by simp [hstep], by simp [hstep, hc], fun hle => absurd hc (by omega)⟩
    · rw [if_neg hc] at hstep
      refine ⟨by simp [hstep], by simp [hstep]; omega, fun _ => by simp [hstep]⟩
  · intro r uid now_s n hf h0
    obtain ⟨h1, h2, _, _⟩ := admitN_normal_invariant uid now_s n r hf
    rw [h0] at h1 h2
    constructor
    · rw [h1]; omega
    · rw [h2]; omega
  · intro r uid now_s n hf
    obtain ⟨h1, _, _, _⟩ := admitN_normal_invariant uid now_s n r hf
    rw [h1]; omega

/-- Witness for C3: 15 calls by a NORMAL principal in one window on a
fresh store admit exactly `min 15 10 = 10` and throttle the rest. -/
theorem rate_limiter_count_then_compare_witness :
    (admitN 1 .NORMAL 0 15 redis0).2.1 = min 15 10 ∧
    (admitN 1 .NORMAL 0 15 redis0).2.2 = 15 - min 15 10 :=
  rate_limiter_count_then_compare.2.1 redis0 1 0 15 rfl rfl

/-- C2 counterexample: the claim says a request whose principal lacks
the required scope is rejected with the rate counter left unchanged,
but in the source the `generate` endpoint runs the rate limiter before
the scope check: this concrete scope-lacking request gets the 403 yet
its window counter has been incremented from 0 to 1. -/
theorem gate_scope_failure_increments_counter :
    (generate_endpoint (fun _ => "H") (fun _ => "m") 0 0 (some "sk-x") none
        { users := [sampleUser], apiKeys := [sampleKeyNoScope 1] } redis0).2 =
      .error ⟨403, "API key missing required scope"⟩ ∧
    (generate_endpoint (fun _ => "H") (fun _ => "m") 0 0 (some "sk-x") none
        { users := [sampleUser], apiKeys := [sampleKeyNoScope 1] } redis0).1.counters (1, 0) = 1 ∧
    redis0.counters (1, 0) = 0 :=
  ⟨rfl, rfl, rfl⟩

/-- C2 amended: the Request Gate evaluates identity resolution, then
the rate limiter, then the scope check, short-circuiting on the first
failure: an identity failure leaves the counter store untouched; a
throttled request is rejected 429 before any scope check; and a
request whose principal lacks the required scope is rejected 403 only
after the limiter has run, with the post-limiter store (its window
counter already updated). -/
theorem gate_order_identity_rate_then_scope (h : String → String)
    (mac : TokenPayload → String) (now now_s : Nat) (xk : Option String)
    (au : Option Token) (db : DB) (r : RedisState) :
    (∀ e, get_current_user h mac now xk au db = .error e →
      generate_endpoint h mac now now_s xk au db r = (r, .error e)) ∧
    (∀ user api, get_current_user h mac now xk au db = .ok (.apiKeyAuth user api) →
      (rate_limit_check_by_user r now_s user.id user.user_type).2.1 = false →
      generate_endpoint h mac now now_s xk au db r =
        ((rate_limit_check_by_user r now_s user.id user.user_type).1,
         .error ⟨429, "rate limit exceeded"⟩)) ∧
    (∀ user api, get_current_user h mac now xk au db = .ok (.apiKeyAuth user api) →
      (rate_limit_check_by_user r now_s user.id user.user_type).2.1 = true →
      api.scopes.contains "generate:text" = false →
      generate_endpoint h mac now now_s xk au db r =
        ((rate_limit_check_by_user r now_s user.id user.user_type).1,
         .error ⟨403, "API key missing required scope"⟩)) := by
  refine ⟨?_, ?_, ?_⟩
  · intro e he
    simp [generate_endpoint, he]
  · intro user api hok hthr
    simp [generate_endpoint, hok, generate, AuthSuccess.user, hthr]
  · intro user api hok hadm hscope
    have hscope' : "generate:text" ∉ api.scopes := by simpa using hscope
    simp [generate_endpoint, hok, generate, AuthSuccess.user, hadm, hscope, hscope']

/-- Witness for C2's amended claim at a concrete input: a scope-lacking
API-key request is rejected 403 with the post-limiter store. -/
theorem gate_order_identity_rate_then_scope_witness :
    generate_endpoint (fun _ => "H") (fun _ => "m") 0 0 (some "sk-x") none
        { users := [sampleUser], apiKeys := [sampleKeyNoScope 1] } redis0 =
      ((rate_limit_check_by_user redis0 0 sampleUser.id sampleUser.user_type).1,
       .error ⟨403, "API key missing required scope"⟩) :=
  (gate_order_identity_rate_then_scope (fun _ => "H") (fun _ => "m") 0 0 (some "sk-x") none
      { users := [sampleUser], apiKeys := [sampleKeyNoScope 1] } redis0).2.2
    sampleUser (sampleKeyNoScope 1) rfl rfl rfl

/-- C1 (code bug): for an ENTERPRISE (UNLIMITED) user, key creation is
always rejected with the 403 quota error, whatever the live-key count:
`API_KEY_QUOTA` maps ENTERPRISE to 0 (the source comment says "0 means
unlimited in our logic"), but `create_api_key` tests
`existing_count >= quota`, and `count >= 0` always holds. -/
theorem enterprise_key_creation_always_quota_rejected
    (h : String → String) (now new_id : Nat) (clear_key : String)
    (req : APIKeyCreateReq) (user : User) (pl : TokenPayload) (db : DB)
    (hut : user.user_type = .ENTERPRISE) :
    create_api_key h now new_id clear_key req (.jwtAuth user pl) db =
      (db, .error ⟨403, "API key quota exceeded"⟩) := by
  simp [create_api_key, hut, API_KEY_QUOTA]

/-- `find?` returns the element when the predicate picks out at most
one element of the list and that element is present. -/
theorem find?_eq_some_of_unique {α : Type} {p : α → Bool} {l : List α} {a : α}
    (ha : a ∈ l) (hpa : p a = true) (huniq : ∀ b ∈ l, p b = true → b = a) :
    l.find? p = some a := by
  induction l with
  | nil => cases ha
  | cons c rest ih =>
    by_cases hc : p c = true
    · have hca : c = a := huniq c (List.mem_cons_self c rest) hc
      subst hca
      simp [List.find?_cons, hc]
    · rcases List.mem_cons.mp ha with hca | hmem
      · exact absurd (hca ▸ hpa) hc
      · simp only [List.find?_cons, hc]
        exact ih hmem (fun b hb hpb => huniq b (List.mem_cons_of_mem _ hb) hpb)

/-- `revokeFirst` maps every row to itself or to itself with the
revoked flag set, so a revoked row with a given hash stays present
and revoked. -/
theorem revokeFirst_preserves_revoked (key_id uid : Nat) (hv : String) (l : List APIKey)
    (hx : ∃ a ∈ l, a.key_hash = hv ∧ a.revoked = true) :
    ∃ a ∈ revokeFirst key_id uid l, a.key_hash = hv ∧ a.revoked = true := by
  obtain ⟨a, ha, h1, h2⟩ := hx
  induction l with
  | nil => cases ha
  | cons c rest ih =>
    rcases List.mem_cons.mp ha with hca | hmem
    · subst hca
      by_cases hc : (a.id == key_id && a.user_id == uid) = true
      · exact ⟨{ a with revoked := true }, by simp [revokeFirst, hc], h1, rfl⟩
      · exact ⟨a, by simp [revokeFirst, hc], h1, h2⟩
    · by_cases hc : (c.id == key_id && c.user_id == uid) = true
      · exact ⟨a, by simp [revokeFirst, hc, hmem], h1, h2⟩
      · obtain ⟨b, hb, hb1, hb2⟩ := ih hmem
        exact ⟨b, by simp [revokeFirst, hc, hb], hb1, hb2⟩

/-- `revokeFirst` only touches the revoked flag, so re-running the
id-and-owner lookup on its output finds the same row, revoked. -/
theorem find?_revokeFirst (key_id uid : Nat) (l : List APIKey) :
    (revokeFirst key_id uid l).find? (fun x => x.id == key_id && x.user_id == uid) =
      (l.find? (fun x => x.id == key_id && x.user_id == uid)).map
        (fun x => { x with revoked := true }) := by
  induction l with
  | nil => rfl
  | cons c rest ih =>
    by_cases hc : (c.id == key_id && c.user_id == uid) = true
    · simp [revokeFirst, hc, List.find?_cons]
    · simp [revokeFirst, hc, List.find?_cons, ih]

/-- Setting the revoked flag on the first matching row twice is the
same as setting it once. -/
theorem revokeFirst_idem (key_id uid : Nat) (l : List APIKey) :
    revokeFirst key_id uid (revokeFirst key_id uid l) = revokeFirst key_id uid l := by
  induction l with
  | nil => rfl
  | cons c rest ih =>
    by_cases hc : (c.id == key_id && c.user_id == uid) = true
    · simp [revokeFirst, hc]
    · simp [revokeFirst, hc, ih]

/-- C10: revocation is idempotent at the public interface: for a key
owned by the calling user (revoked already or not), `revoke_api_key`
succeeds, and re-running it on the resulting store succeeds again and
changes nothing: revoke ∘ revoke = revoke. -/
theorem revoke_idempotent (user : User) (pl : TokenPayload) (key_id : Nat) (db : DB)
    (a : APIKey) (hmem : a ∈ db.apiKeys) (hid : a.id = key_id) (hown : a.user_id = user.id) :
    (∃ i, (revoke_api_key key_id (.jwtAuth user pl) db).2 = .ok i) ∧
    revoke_api_key key_id (.jwtAuth user pl) (revoke_api_key key_id (.jwtAuth user pl) db).1 =
      revoke_api_key key_id (.jwtAuth user pl) db := by
  have hpa : (fun x : APIKey => x.id == key_id && x.user_id == user.id) a = true := by
    simp [hid, hown]
  have hsome : (db.apiKeys.find? (fun x => x.id == key_id && x.user_id == user.id)).isSome :=
    List.find?_isSome.mpr ⟨a, hmem, hpa⟩
  obtain ⟨b, hb⟩ := Option.isSome_iff_exists.mp hsome
  have hb2 : (revokeFirst key_id user.id db.apiKeys).find?
      (fun x => x.id == key_id && x.user_id == user.id) = some { b with revoked := true } := by
    rw [find?_revokeFirst, hb]; rfl
  constructor
  · exact ⟨b.id, by simp [revoke_api_key, hb]⟩
  · simp [revoke_api_key, hb, hb2, revokeFirst_idem]

/-- Witness for C10 at a concrete store: revoking an owned key
succeeds and a second revocation is a no-op on the store. -/
theorem revoke_idempotent_witness :
    (∃ i, (revoke_api_key 1 (.jwtAuth sampleUser samplePayload)
        { users := [sampleUser], apiKeys := [sampleKeyNoScope 1] }).2 = .ok i) ∧
    revoke_api_key 1 (.jwtAuth sampleUser samplePayload)
        (revoke_api_key 1 (.jwtAuth sampleUser samplePayload)
          { users := [sampleUser], apiKeys := [sampleKeyNoScope 1] }).1 =
      revoke_api_key 1 (.jwtAuth sampleUser samplePayload)
        { users := [sampleUser], apiKeys := [sampleKeyNoScope 1] } :=
  revoke_idempotent sampleUser samplePayload 1
    { users := [sampleUser], apiKeys := [sampleKeyNoScope 1] }
    (sampleKeyNoScope 1) (by decide) rfl rfl

/-- C4: with unique key hashes, resolving a raw API-key credential
succeeds exactly on a present, matching, non-revoked, non-expired key
whose owning user resolves — the principal carries that user and the
key row (with its scope set) — and fails with a 401 exactly when the
hash matches no stored key, or the matching key is revoked, or it is
expired, or the owning user is missing.  A present revoked key with
the hash makes resolution fail outright, and both store mutations
(`revoke_api_key`, `create_api_key`) keep such a key present and
revoked, so the failure is permanent: the flag never reverts. -/
theorem api_key_resolution_characterisation (h : String → String)
    (mac : TokenPayload → String) (now : Nat) (k : String) (db : DB)
    (huniq : uniqHash db) :
    (∀ u a, get_current_user h mac now (some k) none db = .ok (.apiKeyAuth u a) ↔
      (a ∈ db.apiKeys ∧ a.key_hash = h k ∧ a.revoked = false ∧
       (∀ e, a.expires_at = some e → ¬ e < now) ∧
       db.users.find? (fun x => x.id == a.user_id) = some u)) ∧
    ((∃ d, get_current_user h mac now (some k) none db = .error ⟨401, d⟩) ↔
      ((∀ a ∈ db.apiKeys, a.key_hash ≠ h k) ∨
       (∃ a ∈ db.apiKeys, a.key_hash = h k ∧ a.revoked = true) ∨
       (∃ a ∈ db.apiKeys, a.key_hash = h k ∧ a.revoked = false ∧
          ∃ e, a.expires_at = some e ∧ e < now) ∨
       (∃ a ∈ db.apiKeys, a.key_hash = h k ∧ a.revoked = false ∧
          (∀ e, a.expires_at = some e → ¬ e < now) ∧
          db.users.find? (fun x => x.id == a.user_id) = none))) ∧
    (∀ a ∈ db.apiKeys, a.key_hash = h k → a.revoked = true →
      get_current_user h mac now (some k) none db = .error ⟨401, "Invalid API key"⟩) ∧
    (∀ (key_id : Nat) (auth : AuthSuccess), hasRevokedKey db (h k) →
      hasRevokedKey (revoke_api_key key_id auth db).1 (h k)) ∧
    (∀ (now2 nid : Nat) (ck : String) (req : APIKeyCreateReq) (auth : AuthSuccess),
      hasRevokedKey db (h k) →
      hasRevokedKey (create_api_key h now2 nid ck req auth db).1 (h k)) := by
  have hfind_iff : ∀ a : APIKey,
      db.apiKeys.find? (fun x => x.key_hash == h k && !x.revoked) = some a ↔
        (a ∈ db.apiKeys ∧ a.key_hash = h k ∧ a.revoked = false) := by
    intro a
    constructor
    · intro hf
      have hm := List.mem_of_find?_eq_some hf
      have hp := List.find?_some hf
      simp only [Bool.and_eq_true, beq_iff_eq, Bool.not_eq_true'] at hp
      exact ⟨hm, hp.1, hp.2⟩
    · rintro ⟨hm, h1, h2⟩
      refine find?_eq_some_of_unique hm (by simp [h1, h2]) ?_
      intro b hb hpb
      simp only [Bool.and_eq_true, beq_iff_eq, Bool.not_eq_true'] at hpb
      exact huniq b hb a hm (hpb.1.trans h1.symm)
  have hperm_revoke : ∀ (key_id : Nat) (auth : AuthSuccess), hasRevokedKey db (h k) →
      hasRevokedKey (revoke_api_key key_id auth db).1 (h k) := by
    intro key_id auth hrv
    cases auth with
    | apiKeyAuth u b => simpa [revoke_api_key] using hrv
    | jwtAuth u pl =>
      rcases hf2 : db.apiKeys.find? (fun x => x.id == key_id && x.user_id == u.id) with _ | b
      · simpa [revoke_api_key, hf2] using hrv
      · have hp := revokeFirst_preserves_revoked key_id u.id (h k) db.apiKeys hrv
        simpa [revoke_api_key, hf2, hasRevokedKey] using hp
  have hperm_create : ∀ (now2 nid : Nat) (ck : String) (req : APIKeyCreateReq)
      (auth : AuthSuccess), hasRevokedKey db (h k) →
      hasRevokedKey (create_api_key h now2 nid ck req auth db).1 (h k) := by
    intro now2 nid ck req auth hrv
    obtain ⟨a, ha, h1, h2⟩ := hrv
    cases auth with
    | apiKeyAuth u b => exact ⟨a, by simpa [create_api_key] using ha, h1, h2⟩
    | jwtAuth u pl =>
      by_cases hq : live_key_count db u.id ≥ API_KEY_QUOTA u.user_type
      · refine ⟨a, ?_, h1, h2⟩
        simp only [create_api_key]
        rw [if_pos hq]
        exact ha
      · refine ⟨a, ?_, h1, h2⟩
        simp only [create_api_key]
        rw [if_neg hq]
        exact List.mem_append_left _ ha
  rcases hF : db.apiKeys.find? (fun x => x.key_hash == h k && !x.revoked) with _ | a0
  · have hno : ∀ a ∈ db.apiKeys, a.key_hash = h k → a.revoked = true := by
      intro a ha h1
      cases hrv : a.revoked
      · have := (hfind_iff a).mpr ⟨ha, h1, hrv⟩
        rw [hF] at this
        cases this
      · rfl
    have hres : get_current_user h mac now (some k) none db = .error ⟨401, "Invalid API key"⟩ := by
      simp [get_current_user, hF]
    refine ⟨?_, ?_, ?_, hperm_revoke, hperm_create⟩
    · intro u a
      rw [hres]
      constructor
      · intro hcon
        exact Except.noConfusion hcon
      · rintro ⟨ha, h1, h2, _, _⟩
        rw [hno a ha h1] at h2
        cases h2
    · constructor
      · intro _
        by_cases hex : ∃ a ∈ db.apiKeys, a.key_hash = h k
        · obtain ⟨a, ha, h1⟩ := hex
          exact Or.inr (Or.inl ⟨a, ha, h1, hno a ha h1⟩)
        · exact Or.inl (fun a ha h1 => hex ⟨a, ha, h1⟩)
      · intro _
        exact ⟨"Invalid API key", hres⟩
    · intro a ha h1 h2
      exact hres
  · obtain ⟨hmem0, hhash0, hrev0⟩ := (hfind_iff a0).mp hF
    have hpin : ∀ a ∈ db.apiKeys, a.key_hash = h k → a = a0 := fun a ha h1 =>
      huniq a ha a0 hmem0 (h1.trans hhash0.symm)
    rcases hE : a0.expires_at with _ | e
    · rcases hU : db.users.find? (fun x => x.id == a0.user_id) with _ | u0
      · have hres : get_current_user h mac now (some k) none db =
            .error ⟨401, "User not found"⟩ := by
          simp [get_current_user, hF, hE, hU]
        refine ⟨?_, ?_, ?_, hperm_revoke, hperm_create⟩
        · intro u a
          rw [hres]
          constructor
          · intro hcon
            exact Except.noConfusion hcon
          · rintro ⟨ha, h1, h2, hne, hfu⟩
            rw [hpin a ha h1] at hfu
            rw [hU] at hfu
            cases hfu
        · constructor
          · intro _
            refine Or.inr (Or.inr (Or.inr ⟨a0, hmem0, hhash0, hrev0, ?_, hU⟩))
            intro e' he'
            rw [hE] at he'
            cases he'
          · intro _
            exact ⟨"User not found", hres⟩
        · intro a ha h1 h2
          rw [hpin a ha h1, hrev0] at h2
          cases h2
      · have hres : get_current_user h mac now (some k) none db =
            .ok (.apiKeyAuth u0 a0) := by
          simp [get_current_user, hF, hE, hU]
        refine ⟨?_, ?_, ?_, hperm_revoke, hperm_create⟩
        · intro u a
          rw [hres]
          constructor
          · intro hok
            simp only [Except.ok.injEq, AuthSuccess.apiKeyAuth.injEq] at hok
            obtain ⟨hu, ha'⟩ := hok
            subst hu
            subst ha'
            refine ⟨hmem0, hhash0, hrev0, ?_, hU⟩
            intro e' he'
            rw [hE] at he'
            cases he'
          · rintro ⟨ha, h1, h2, hne, hfu⟩
            rw [hpin a ha h1] at hfu ⊢
            rw [hU] at hfu
            cases hfu
            rfl
        · constructor
          · rintro ⟨d, hd⟩
            rw [hres] at hd
            exact Except.noConfusion hd
          · rintro (hcon | ⟨a, ha, h1, h2⟩ | ⟨a, ha, h1, h2, e', he', hlt'⟩ |
              ⟨a, ha, h1, h2, hne', hfnone⟩)
            · exact absurd hhash0 (hcon a0 hmem0)
            · rw [hpin a ha h1, hrev0] at h2
              cases h2
            · rw [hpin a ha h1] at he'
              rw [hE] at he'
              cases he'
            · rw [hpin a ha h1] at hfnone
              rw [hU] at hfnone
              cases hfnone
        · intro a ha h1 h2
          rw [hpin a ha h1, hrev0] at h2
          cases h2
    · by_cases hlt : e < now
      · have hres : get_current_user h mac now (some k) none db =
            .error ⟨401, "API key expired"⟩ := by
          simp [get_current_user, hF, hE, hlt]
        refine ⟨?_, ?_, ?_, hperm_revoke, hperm_create⟩
        · intro u a
          rw [hres]
          constructor
          · intro hcon
            exact Except.noConfusion hcon
          · rintro ⟨ha, h1, h2, hne, hfu⟩
            have ha0 := hpin a ha h1
            subst ha0
            exact absurd hlt (hne e hE)
        · constructor
          · intro _
            exact Or.inr (Or.inr (Or.inl ⟨a0, hmem0, hhash0, hrev0, e, hE, hlt⟩))
          · intro _
            exact ⟨"API key expired", hres⟩
        · intro a ha h1 h2
          rw [hpin a ha h1, hrev0] at h2
          cases h2
      · rcases hU : db.users.find? (fun x => x.id == a0.user_id) with _ | u0
        · have hres : get_current_user h mac now (some k) none db =
              .error ⟨401, "User not found"⟩ := by
            simp [get_current_user, hF, hE, hlt, hU]
          refine ⟨?_, ?_, ?_, hperm_revoke, hperm_create⟩
          · intro u a
            rw [hres]
            constructor
            · intro hcon
              exact Except.noConfusion hcon
            · rintro ⟨ha, h1, h2, hne, hfu⟩
              rw [hpin a ha h1] at hfu
              rw [hU] at hfu
              cases hfu
          · constructor
            · intro _
              refine Or.inr (Or.inr (Or.inr ⟨a0, hmem0, hhash0, hrev0, ?_, hU⟩))
              intro e' he'
              rw [hE] at he'
              cases he'
              exact hlt
            · intro _
              exact ⟨"User not found", hres⟩
          · intro a ha h1 h2
            rw [hpin a ha h1, hrev0] at h2
            cases h2
        · have hres : get_current_user h mac now (some k) none db =
              .ok (.apiKeyAuth u0 a0) := by
            simp [get_current_user, hF, hE, hlt, hU]
          refine ⟨?_, ?_, ?_, hperm_revoke, hperm_create⟩
          · intro u a
            rw [hres]
            constructor
            · intro hok
              simp only [Except.ok.injEq, AuthSuccess.apiKeyAuth.injEq] at hok
              obtain ⟨hu, ha'⟩ := hok
              subst hu
              subst ha'
              refine ⟨hmem0, hhash0, hrev0, ?_, hU⟩
              intro e' he'
              rw [hE] at he'
              cases he'
              exact hlt
            · rintro ⟨ha, h1, h2, hne, hfu⟩
              rw [hpin a ha h1] at hfu ⊢
              rw [hU] at hfu
              cases hfu
              rfl
          · constructor
            · rintro ⟨d, hd⟩
              rw [hres] at hd
              exact Except.noConfusion hd
            · rintro (hcon | ⟨a, ha, h1, h2⟩ | ⟨a, ha, h1, h2, e', he', hlt'⟩ |
                ⟨a, ha, h1, h2, hne', hfnone⟩)
              · exact absurd hhash0 (hcon a0 hmem0)
              · rw [hpin a ha h1, hrev0] at h2
                cases h2
              · rw [hpin a ha h1] at he'
                rw [hE] at he'
                cases he'
                exact absurd hlt' hlt
              · rw [hpin a ha h1] at hfnone
                rw [hU] at hfnone
                cases hfnone
          · intro a ha h1 h2
            rw [hpin a ha h1, hrev0] at h2
            cases h2

/-- Witness for C4 at a concrete store holding only a revoked key
matching the presented secret: resolution fails 401. -/
theorem api_key_resolution_characterisation_witness :
    get_current_user (fun _ => "H") (fun _ => "m") 0 (some "sk-x") none
        { users := [sampleUser], apiKeys := [{ sampleKeyNoScope 1 with revoked := true }] } =
      .error ⟨401, "Invalid API key"⟩ :=
  (api_key_resolution_characterisation (fun _ => "H") (fun _ => "m") 0 "sk-x"
      { users := [sampleUser], apiKeys := [{ sampleKeyNoScope 1 with revoked := true }] }
      (by
        intro a ha b hb hab
        rw [List.mem_singleton] at ha hb
        rw [ha, hb])).2.2.1
    { sampleKeyNoScope 1 with revoked := true } (List.mem_singleton.mpr rfl) rfl rfl

/-- C6: for a JWT-authenticated user, key creation fails with the 403
quota error exactly when the live (non-revoked) key count has reached
`API_KEY_QUOTA` of the tier, and then the store is returned unchanged;
below the limit a key is created: a fresh live key belonging to the
user is appended and the live count goes up by one. -/
theorem key_creation_quota_characterisation (h : String → String) (now new_id : Nat)
    (clear_key : String) (req : APIKeyCreateReq) (user : User) (pl : TokenPayload) (db : DB) :
    (live_key_count db user.id ≥ API_KEY_QUOTA user.user_type →
      create_api_key h now new_id clear_key req (.jwtAuth user pl) db =
        (db, .error ⟨403, "API key quota exceeded"⟩)) ∧
    (live_key_count db user.id < API_KEY_QUOTA user.user_type →
      ∃ newKey : APIKey, newKey.user_id = user.id ∧ newKey.revoked = false ∧
        (create_api_key h now new_id clear_key req (.jwtAuth user pl) db).1 =
          { db with apiKeys := db.apiKeys ++ [newKey] } ∧
        (∃ out, (create_api_key h now new_id clear_key req (.jwtAuth user pl) db).2 = .ok out) ∧
        live_key_count (create_api_key h now new_id clear_key req (.jwtAuth user pl) db).1 user.id =
          live_key_count db user.id + 1) := by
  constructor
  · intro hge
    simp only [create_api_key]
    rw [if_pos hge]
  · intro hlt
    simp only [create_api_key]
    rw [if_neg (by omega : ¬ live_key_count db user.id ≥ API_KEY_QUOTA user.user_type)]
    refine ⟨_, rfl, rfl, rfl, ⟨_, rfl⟩, ?_⟩
    simp [live_key_count, List.filter_append]

/-- Witness for C6, the STANDARD scenario: `sampleUser` (NORMAL tier,
quota 10) holding exactly 10 live keys is rejected on the 11th
creation with the store unchanged; after revoking key 1 the same
creation succeeds and appends a live key. -/
theorem key_creation_quota_characterisation_witness :
    (create_api_key (fun _ => "H2") 0 11 "sk-new"
        { name := none, expires_days := none, scopes := none }
        (.jwtAuth sampleUser samplePayload) db10 =
      (db10, .error ⟨403, "API key quota exceeded"⟩)) ∧
    (∃ newKey : APIKey, newKey.user_id = sampleUser.id ∧ newKey.revoked = false ∧
      (create_api_key (fun _ => "H2") 0 11 "sk-new"
          { name := none, expires_days := none, scopes := none }
          (.jwtAuth sampleUser samplePayload)
          (revoke_api_key 1 (.jwtAuth sampleUser samplePayload) db10).1).1 =
        { (revoke_api_key 1 (.jwtAuth sampleUser samplePayload) db10).1 with
          apiKeys := (revoke_api_key 1 (.jwtAuth sampleUser samplePayload) db10).1.apiKeys ++
            [newKey] } ∧
      (∃ out, (create_api_key (fun _ => "H2") 0 11 "sk-new"
          { name := none, expires_days := none, scopes := none }
          (.jwtAuth sampleUser samplePayload)
          (revoke_api_key 1 (.jwtAuth sampleUser samplePayload) db10).1).2 = .ok out) ∧
      live_key_count (create_api_key (fun _ => "H2") 0 11 "sk-new"
          { name := none, expires_days := none, scopes := none }
          (.jwtAuth sampleUser samplePayload)
          (revoke_api_key 1 (.jwtAuth sampleUser samplePayload) db10).1).1 sampleUser.id =
        live_key_count (revoke_api_key 1 (.jwtAuth sampleUser samplePayload) db10).1
          sampleUser.id + 1) :=
  ⟨(key_creation_quota_characterisation (fun _ => "H2") 0 11 "sk-new"
      { name := none, expires_days := none, scopes := none } sampleUser samplePayload db10).1
      (by decide),
   (key_creation_quota_characterisation (fun _ => "H2") 0 11 "sk-new"
      { name := none, expires_days := none, scopes := none } sampleUser samplePayload
      (revoke_api_key 1 (.jwtAuth sampleUser samplePayload) db10).1).2 (by decide)⟩

/-- Witness for C1: an ENTERPRISE user holding zero live keys already
fails the quota check on their first creation attempt. -/
theorem enterprise_key_creation_always_quota_rejected_witness :
    create_api_key (fun _ => "H") 0 1 "sk-new" { name := none, expires_days := none, scopes := none }
      (.jwtAuth sampleEnterpriseUser samplePayload) { users := [sampleEnterpriseUser], apiKeys := [] } =
      ({ users := [sampleEnterpriseUser], apiKeys := [] }, .error ⟨403, "API key quota exceeded"⟩) :=
  enterprise_key_creation_always_quota_rejected (fun _ => "H") 0 1 "sk-new"
    { name := none, expires_days := none, scopes := none } sampleEnterpriseUser samplePayload
    { users := [sampleEnterpriseUser], apiKeys := [] } rfl

end Saas
